import Mathlib

/-!
Shallow embedding of `src/netClient.js` (class `NetClient`): a WebSocket
session-protocol client for a room-based multiplayer service.  JavaScript
runtime values that can reach the session state are modelled as
`JsVal := Option Json` where `none` stands for `undefined` and
`some Json.null` for `null`; strict equality (`===`) on values coming from
distinct `JSON.parse` results is structural on primitives and false on
compound values (distinct object references).  `JSON.parse` itself is a
platform function; an inbound text frame is therefore modelled by its parse
result (`none` = parse failure).
-/

namespace NetClient

/-- JSON values as produced by `JSON.parse`. -/
inductive Json where
  | null
  | bool (b : Bool)
  | num (n : Int)
  | str (s : String)
  | arr (elems : List Json)
  | obj (fields : List (String × Json))

/-- A JavaScript value held in a field of the client: `none` is `undefined`,
`some j` a parsed JSON value (which may itself be `null`). -/
abbrev JsVal := Option Json

/-- The JavaScript `null` literal, as stored by `this.x = null`. -/
def jsNull : JsVal := some Json.null

/-- Property access `d.k` on a parse result that is not `null`:
object lookup, `undefined` for a missing key or a non-object receiver. -/
def jsField (d : Json) (k : String) : JsVal :=
  match d with
  | Json.obj fields => fields.lookup k
  | _ => none

/-- Strict equality (`===`) between two stored values originating from
distinct `JSON.parse` results (or `null`/`undefined` literals): structural
on primitives, `false` on compounds since their references differ. -/
def jsStrictEq (a b : JsVal) : Bool :=
  match a, b with
  | none, none => true
  | some Json.null, some Json.null => true
  | some (Json.bool x), some (Json.bool y) => decide (x = y)
  | some (Json.num x), some (Json.num y) => decide (x = y)
  | some (Json.str x), some (Json.str y) => decide (x = y)
  | _, _ => false

/-- Whether a value is `null` or `undefined`. -/
def isNullish (v : JsVal) : Bool :=
  match v with
  | none => true
  | some Json.null => true
  | _ => false

/-- The session state fields of the client (`playerId`, `roomId`,
`ownerId`, `isHost`), lines 14-17 of the source. -/
structure SessionState where
  playerId : JsVal
  roomId : JsVal
  ownerId : JsVal
  isHost : Bool

/-- Constructor state: all identifier fields `null`, `isHost` false. -/
def initialSession : SessionState :=
  { playerId := jsNull, roomId := jsNull, ownerId := jsNull, isHost := false }

/-- Events emitted through `this.emit(...)`, with their positional
arguments. -/
inductive Event where
  | connected
  | disconnected
  | assignedId (id : JsVal)
  | roomCreated (roomId playerId metaData : JsVal)
  | roomJoined (roomId playerId ownerId maxClients metaData : JsVal)
  | playerJoined (playerId : JsVal)
  | leftRoom (roomId : JsVal)
  | makeHost (oldHostId : JsVal)
  | reassignedHost (newHostId oldHostId : JsVal)
  | playerLeft (playerId : JsVal)
  | relay (fromId payload : JsVal)
  | tellOwner (fromId payload : JsVal)
  | tellPlayer (fromId payload : JsVal)
  | roomList (rooms : JsVal)
  | roomUpdated (metaData : JsVal)
  | roomTagAdded (tag tags : JsVal)
  | roomTagRemoved (tag tags : JsVal)
  | error (message : JsVal)
  | binary (senderId : Nat) (payload : List Nat)

/-- Exceptions the message handler can let escape. -/
inductive JsError where
  | rangeError
  | typeError
deriving DecidableEq

/-- An inbound frame as seen by `_handleMessage`: a binary frame carries
its raw bytes; a text frame is represented by its `JSON.parse` outcome
(`none` when parsing throws). -/
inductive Inbound where
  | binary (bytes : List Nat)
  | text (parsed : Option Json)

/-- `DataView.getUint32(0)`: the first four bytes read big-endian
(throws before this is meaningful when fewer than 4 bytes exist). -/
def getUint32BE (bytes : List Nat) : Nat :=
  bytes.getD 0 0 * 2 ^ 24 + bytes.getD 1 0 * 2 ^ 16 +
    bytes.getD 2 0 * 2 ^ 8 + bytes.getD 3 0

/-- The four big-endian bytes of a 32-bit sender identifier, as the server
stamps them on a relayed binary frame. -/
def beBytes4 (n : Nat) : List Nat :=
  [n / 2 ^ 24 % 256, n / 2 ^ 16 % 256, n / 2 ^ 8 % 256, n % 256]

/-- The seventeen outcomes of the `switch (data.type)` discriminator test:
one per recognized case label, plus fall-through. -/
inductive MsgType where
  | assignId | roomCreated | roomJoined | playerJoined | leftRoom
  | makeHost | reassignedHost | playerLeft | relay | tellOwner
  | tellPlayer | roomList | roomUpdated | roomTagAdded | roomTagRemoved
  | error | other
deriving DecidableEq

/-- Which `switch` case a `data.type` value selects.  A JavaScript
`switch` compares the scrutinee to each case label with `===`; the labels
here are all string literals, so a non-string `type` (including the
`undefined` produced by a missing key or a non-object receiver) matches
nothing. -/
def typeCode (v : JsVal) : MsgType :=
  match v with
  | some (Json.str t) =>
      if t = ("assignId") then MsgType.assignId
      else if t = ("roomCreated") then MsgType.roomCreated
      else if t = ("roomJoined") then MsgType.roomJoined
      else if t = ("playerJoined") then MsgType.playerJoined
      else if t = ("leftRoom") then MsgType.leftRoom
      else if t = ("makeHost") then MsgType.makeHost
      else if t = ("reassignedHost") then MsgType.reassignedHost
      else if t = ("playerLeft") then MsgType.playerLeft
      else if t = ("relay") then MsgType.relay
      else if t = ("tellOwner") then MsgType.tellOwner
      else if t = ("tellPlayer") then MsgType.tellPlayer
      else if t = ("roomList") then MsgType.roomList
      else if t = ("roomUpdated") then MsgType.roomUpdated
      else if t = ("roomTagAdded") then MsgType.roomTagAdded
      else if t = ("roomTagRemoved") then MsgType.roomTagRemoved
      else if t = ("error") then MsgType.error
      else MsgType.other
  | _ => MsgType.other

/-- The `switch (data.type)` dispatch of `_handleMessage` (source lines
163-249): state mutation followed by the emitted event; an unmatched
`type` falls through with no mutation and no event. -/
def dispatch (d : Json) (s : SessionState) : SessionState × List Event :=
  match typeCode (jsField d ("type")) with
  | MsgType.assignId =>
      ({ s with playerId := jsField d ("playerId") },
       [Event.assignedId (jsField d ("playerId"))])
  | MsgType.roomCreated =>
      ({ s with roomId := jsField d ("roomId"),
                ownerId := jsField d ("playerId"), isHost := true },
       [Event.roomCreated (jsField d ("roomId")) (jsField d ("playerId"))
          (jsField d ("metaData"))])
  | MsgType.roomJoined =>
      ({ s with roomId := jsField d ("roomId"),
                ownerId := jsField d ("ownerId"), isHost := false },
       [Event.roomJoined (jsField d ("roomId")) (jsField d ("playerId"))
          (jsField d ("ownerId")) (jsField d ("maxClients"))
          (jsField d ("metaData"))])
  | MsgType.playerJoined =>
      (s, [Event.playerJoined (jsField d ("playerId"))])
  | MsgType.leftRoom =>
      ({ s with roomId := jsNull, ownerId := jsNull, isHost := false },
       [Event.leftRoom (jsField d ("roomId"))])
  | MsgType.makeHost =>
      ({ s with isHost := true, ownerId := s.playerId },
       [Event.makeHost (jsField d ("oldHostId"))])
  | MsgType.reassignedHost =>
      ({ s with ownerId := jsField d ("newHostId"),
                isHost := jsStrictEq s.playerId (jsField d ("newHostId")) },
       [Event.reassignedHost (jsField d ("newHostId"))
          (jsField d ("oldHostId"))])
  | MsgType.playerLeft =>
      (s, [Event.playerLeft (jsField d ("playerId"))])
  | MsgType.relay =>
      (s, [Event.relay (jsField d ("from")) (jsField d ("payload"))])
  | MsgType.tellOwner =>
      (s, [Event.tellOwner (jsField d ("from")) (jsField d ("payload"))])
  | MsgType.tellPlayer =>
      (s, [Event.tellPlayer (jsField d ("from")) (jsField d ("payload"))])
  | MsgType.roomList =>
      (s, [Event.roomList (jsField d ("rooms"))])
  | MsgType.roomUpdated =>
      (s, [Event.roomUpdated (jsField d ("metaData"))])
  | MsgType.roomTagAdded =>
      (s, [Event.roomTagAdded (jsField d ("tag")) (jsField d ("tags"))])
  | MsgType.roomTagRemoved =>
      (s, [Event.roomTagRemoved (jsField d ("tag")) (jsField d ("tags"))])
  | MsgType.error =>
      (s, [Event.error (jsField d ("message"))])
  | MsgType.other => (s, [])

/-- `_handleMessage` (source lines 145-250).  A binary frame of fewer than
4 bytes makes `DataView.getUint32(0)` throw a `RangeError`; otherwise the
big-endian sender id and the `slice(4)` payload are emitted with no state
change.  A text frame that fails to parse is silently dropped.  A parse
result of `null` makes the `data.type` access throw a `TypeError`; any
other parse result goes to the dispatch table (property access on
non-object primitives yields `undefined`, matching no case). -/
def handleMessage (m : Inbound) (s : SessionState) :
    Except JsError (SessionState × List Event) :=
  match m with
  | Inbound.binary bytes =>
      if bytes.length < 4 then Except.error JsError.rangeError
      else Except.ok (s, [Event.binary (getUint32BE bytes) (bytes.drop 4)])
  | Inbound.text none => Except.ok (s, [])
  | Inbound.text (some Json.null) => Except.error JsError.typeError
  | Inbound.text (some d) => Except.ok (dispatch d s)

/-- The session state after a frame is handled: exceptions in
`_handleMessage` are thrown before any field assignment, so a throwing
frame leaves the state unchanged. -/
def stepState (m : Inbound) (s : SessionState) : SessionState :=
  match handleMessage m s with
  | Except.ok (s2, _) => s2
  | Except.error _ => s

/-- State after processing a sequence of inbound frames in order. -/
def runMsgs (msgs : List Inbound) (s : SessionState) : SessionState :=
  msgs.foldl (fun st m => stepState m st) s

/-- The `ws.onclose` handler (source lines 46-52): reset every session
field, then emit `"disconnected"`. -/
def onClose (s : SessionState) : SessionState × List Event :=
  let s2 : SessionState :=
    { s with playerId := jsNull, roomId := jsNull,
             ownerId := jsNull, isHost := false }
  (s2, [Event.disconnected])

/-- An outbound frame handed to `ws.send`: the JSON object of `_send`
(before `JSON.stringify`) or the raw buffer of `sendBinary`. -/
inductive OutFrame where
  | text (j : Json)
  | binaryFrame (bytes : List Nat)

/-- `WebSocket.OPEN`. -/
def wsOPEN : Nat := 1

/-- The guard shared by `_send` (lines 252-255) and `sendBinary`
(lines 136-139): with no transport handle (`ws = none`) or a handle whose
`readyState` is not `OPEN`, nothing is sent; otherwise the one frame goes
out.  `ws` is the `this.ws` field: `none` for an absent handle, `some r`
for a handle with `readyState = r`. -/
def sendGate (ws : Option Nat) (f : OutFrame) : List OutFrame :=
  match ws with
  | none => []
  | some r => if r = wsOPEN then [f] else []

/-- The eleven outward-facing calls of the Room/Messaging API with their
arguments. -/
inductive ApiCall where
  | createRoom (tags : List Json) (maxClients : Json) (isPrivate : Bool)
      (metaData : Json)
  | joinRoom (roomId : Json)
  | leaveRoom
  | listRooms (tags : List Json)
  | updateMeta (metaData : Json)
  | addTag (tag : Json)
  | removeTag (tag : Json)
  | sendRelay (payload : Json)
  | tellOwner (payload : Json)
  | tellPlayer (playerId : Json) (payload : Json)
  | sendBinary (bytes : List Nat)

/-- The game-namespace tag added by `createRoom` and `listRooms`. -/
def gameTag (gameName : String) : Json :=
  Json.str ("game:" ++ gameName)

/-- The JSON object each JSON-carrying API call builds and passes to
`_send` (source lines 67-134); `sendBinary` bypasses JSON framing. -/
def buildMsg (gameName : String) (c : ApiCall) : Option Json :=
  match c with
  | ApiCall.createRoom tags maxClients isPrivate metaData =>
      some (Json.obj
        [("type", Json.str ("createRoom")),
         ("tags", Json.arr (tags ++ [gameTag gameName] ++
            (if isPrivate then [Json.str ("private")] else []))),
         ("maxClients", maxClients),
         ("metaData", metaData)])
  | ApiCall.joinRoom roomId =>
      some (Json.obj [("type", Json.str ("joinRoom")), ("roomId", roomId)])
  | ApiCall.leaveRoom =>
      some (Json.obj [("type", Json.str ("leaveRoom"))])
  | ApiCall.listRooms tags =>
      some (Json.obj
        [("type", Json.str ("listRooms")),
         ("tags", Json.arr (tags ++ [gameTag gameName]))])
  | ApiCall.updateMeta metaData =>
      some (Json.obj
        [("type", Json.str ("updateMeta")), ("metaData", metaData)])
  | ApiCall.addTag tag =>
      some (Json.obj [("type", Json.str ("setRoomTag")), ("tag", tag)])
  | ApiCall.removeTag tag =>
      some (Json.obj [("type", Json.str ("clearRoomTag")), ("tag", tag)])
  | ApiCall.sendRelay payload =>
      some (Json.obj [("type", Json.str ("relay")), ("payload", payload)])
  | ApiCall.tellOwner payload =>
      some (Json.obj
        [("type", Json.str ("tellOwner")), ("payload", payload)])
  | ApiCall.tellPlayer playerId payload =>
      some (Json.obj
        [("type", Json.str ("tellPlayer")), ("playerId", playerId),
         ("payload", payload)])
  | ApiCall.sendBinary _ => none

/-- The frames an API call puts on the wire, given the current transport
handle.  JSON calls route through `_send`; `sendBinary` applies the same
guard inline and sends the raw buffer.  Every call is total: no failure is
surfaced to the caller. -/
def apiSend (gameName : String) (ws : Option Nat) (c : ApiCall) :
    List OutFrame :=
  match c with
  | ApiCall.sendBinary bytes => sendGate ws (OutFrame.binaryFrame bytes)
  | _ =>
      match buildMsg gameName c with
      | some j => sendGate ws (OutFrame.text j)
      | none => []

/-- `emit` (source lines 32-34) runs `forEach` over the callbacks
registered for the event.  A callback is modelled by whether invoking it
with the emit's arguments raises (`true`) or returns normally (`false`).
`forEach` invokes callbacks in registration order and propagates the first
exception immediately, so iteration stops there.  The result pairs the
indices of the callbacks actually invoked with whether an exception
escaped `emit`. -/
def forEachRun (cbs : List Bool) (i : Nat) : List Nat × Bool :=
  match cbs with
  | [] => ([], false)
  | raises :: rest =>
      if raises then ([i], true)
      else
        let r := forEachRun rest (i + 1)
        (i :: r.1, r.2)

/-- The callbacks (by index) invoked by one `emit` over the given
registered-callback list, and whether an exception escaped. -/
def emitInvoked (cbs : List Bool) : List Nat × Bool :=
  forEachRun cbs 0

/-- The invariant the spec asserts, read with JavaScript equality
semantics: `isHost == (ownerId == playerId)` where `null`/`undefined`
fields compare equal to themselves. -/
def hostInvClaimed (s : SessionState) : Bool :=
  s.isHost == jsStrictEq s.ownerId s.playerId

/-- The invariant that actually holds on well-formed runs: `isHost` is
true exactly when `ownerId` is a non-null identifier equal to
`playerId`. -/
def hostInv (s : SessionState) : Bool :=
  s.isHost == (!isNullish s.ownerId && jsStrictEq s.ownerId s.playerId)

/-- A primitive, non-null identifier value (a parsed string, number or
boolean), as server-assigned ids are. -/
def isIdVal (v : JsVal) : Bool :=
  match v with
  | some (Json.bool _) => true
  | some (Json.num _) => true
  | some (Json.str _) => true
  | _ => false

/-- Server-consistency of one inbound frame with respect to the state in
which it is processed, as far as the host/owner invariant needs:
`roomCreated` echoes the session's own primitive `playerId`; `roomJoined`
names an owner other than the local player (or none); `assignId` arrives
only while no owner is set; `makeHost` arrives only when the local
`playerId` is a primitive id; `reassignedHost` never pairs a nullish
`newHostId` with a strictly-equal local `playerId`. -/
def wfHostMsg (m : Inbound) (s : SessionState) : Bool :=
  match m with
  | Inbound.binary _ => true
  | Inbound.text none => true
  | Inbound.text (some d) =>
      match typeCode (jsField d ("type")) with
      | MsgType.assignId => isNullish s.ownerId
      | MsgType.roomCreated =>
          isIdVal (jsField d ("playerId")) &&
            jsStrictEq (jsField d ("playerId")) s.playerId
      | MsgType.roomJoined =>
          isNullish (jsField d ("ownerId")) ||
            !jsStrictEq (jsField d ("ownerId")) s.playerId
      | MsgType.makeHost => isIdVal s.playerId
      | MsgType.reassignedHost =>
          !isNullish (jsField d ("newHostId")) ||
            !jsStrictEq s.playerId (jsField d ("newHostId"))
      | _ => true

/-- The room/owner invariant of the spec: a non-null `roomId` implies a
non-null `ownerId`. -/
def roomOwnerInv (s : SessionState) : Bool :=
  isNullish s.roomId || !isNullish s.ownerId

/-- Server-consistency of one inbound frame as far as the room/owner
invariant needs: `roomCreated` and `roomJoined` carry a non-null owner id
whenever they carry a non-null room id; `makeHost` arrives only when the
local `playerId` is non-null (or no room is joined); `reassignedHost`
carries a non-null `newHostId` (or no room is joined). -/
def wfRoomMsg (m : Inbound) (s : SessionState) : Bool :=
  match m with
  | Inbound.binary _ => true
  | Inbound.text none => true
  | Inbound.text (some d) =>
      match typeCode (jsField d ("type")) with
      | MsgType.roomCreated =>
          !isNullish (jsField d ("playerId")) ||
            isNullish (jsField d ("roomId"))
      | MsgType.roomJoined =>
          !isNullish (jsField d ("ownerId")) ||
            isNullish (jsField d ("roomId"))
      | MsgType.makeHost =>
          !isNullish s.playerId || isNullish s.roomId
      | MsgType.reassignedHost =>
          !isNullish (jsField d ("newHostId")) || isNullish s.roomId
      | _ => true

/-- A run of inbound frames in which every frame satisfies the given
per-frame condition at the state in which it is processed. -/
def wfRun (wf : Inbound → SessionState → Bool) (s : SessionState) :
    List Inbound → Bool
  | [] => true
  | m :: ms => wf m s && wfRun wf (stepState m s) ms

/-- The sixteen `type` discriminators the dispatch table recognizes. -/
def recognizedTypes : List String :=
  ["assignId", "roomCreated", "roomJoined", "playerJoined", "leftRoom",
   "makeHost", "reassignedHost", "playerLeft", "relay", "tellOwner",
   "tellPlayer", "roomList", "roomUpdated", "roomTagAdded",
   "roomTagRemoved", "error"]

/-- Whether a `type` value selects some dispatch case. -/
def isRecognizedType (v : JsVal) : Bool :=
  match v with
  | some (Json.str t) => recognizedTypes.contains t
  | _ => false

/-- A concrete well-behaved inbound run: the server assigns id 7, then
acknowledges a room created by this client. -/
def demoRun : List Inbound :=
  [Inbound.text (some (Json.obj
     [(("type"), Json.str ("assignId")), (("playerId"), Json.num 7)])),
   Inbound.text (some (Json.obj
     [(("type"), Json.str ("roomCreated")), (("roomId"), Json.str ("R1")),
      (("playerId"), Json.num 7)]))]

/-- A concrete well-behaved inbound run for the room/owner invariant:
one `roomCreated` acknowledgment carrying room and owner ids. -/
def demoRoomRun : List Inbound :=
  [Inbound.text (some (Json.obj
     [(("type"), Json.str ("roomCreated")), (("roomId"), Json.str ("R2")),
      (("playerId"), Json.num 9)]))]

theorem jsStrictEq_symm (a b : JsVal) : jsStrictEq a b = jsStrictEq b a := by
  rcases a with _ | ja <;> rcases b with _ | jb
  · rfl
  · cases jb <;> rfl
  · cases ja <;> rfl
  · cases ja <;> cases jb <;>
      simp [jsStrictEq] <;>
      first
        | rfl
        | exact eq_comm

theorem isNullish_eq_false_of_isIdVal (v : JsVal) (h : isIdVal v = true) :
    isNullish v = false := by
  rcases v with _ | jv
  · simp [isIdVal] at h
  · cases jv <;> simp_all [isIdVal, isNullish]

theorem jsStrictEq_self_of_isIdVal (v : JsVal) (h : isIdVal v = true) :
    jsStrictEq v v = true := by
  rcases v with _ | jv
  · simp [isIdVal] at h
  · cases jv <;> simp_all [isIdVal, jsStrictEq]

theorem stepState_binary (bytes : List Nat) (s : SessionState) :
    stepState (Inbound.binary bytes) s = s := by
  unfold stepState handleMessage
  by_cases h : bytes.length < 4 <;> simp [h]

theorem hostInv_dispatch (d : Json) (s : SessionState)
    (hs : hostInv s = true)
    (hw : wfHostMsg (Inbound.text (some d)) s = true) :
    hostInv (dispatch d s).1 = true := by
  simp only [wfHostMsg] at hw
  cases hc : typeCode (jsField d ("type")) <;>
    rw [hc] at hw <;>
    simp only [dispatch, hc] <;>
    try exact hs
  case assignId =>
    simp only at hw
    simp only [hostInv] at hs ⊢
    simp only [hw, Bool.not_true, Bool.false_and] at hs ⊢
    exact hs
  case roomCreated =>
    simp only [Bool.and_eq_true] at hw
    simp only [hostInv,
      isNullish_eq_false_of_isIdVal _ hw.1, Bool.not_false, Bool.true_and]
    simp [hw.2]
  case roomJoined =>
    simp only [Bool.or_eq_true, Bool.not_eq_true'] at hw
    simp only [hostInv]
    rcases hw with hw | hw <;> simp [hw]
  case leftRoom => rfl
  case makeHost =>
    simp only at hw
    simp [hostInv, isNullish_eq_false_of_isIdVal _ hw,
      jsStrictEq_self_of_isIdVal _ hw]
  case reassignedHost =>
    simp only [Bool.or_eq_true, Bool.not_eq_true'] at hw
    simp only [hostInv]
    rw [jsStrictEq_symm (jsField d ("newHostId")) s.playerId]
    rcases hw with hw | hw
    · cases he : jsStrictEq s.playerId (jsField d ("newHostId")) <;>
        simp [hw, he]
    · simp [hw]

theorem roomOwnerInv_dispatch (d : Json) (s : SessionState)
    (hs : roomOwnerInv s = true)
    (hw : wfRoomMsg (Inbound.text (some d)) s = true) :
    roomOwnerInv (dispatch d s).1 = true := by
  simp only [wfRoomMsg] at hw
  cases hc : typeCode (jsField d ("type")) <;>
    rw [hc] at hw <;>
    simp only [dispatch, hc] <;>
    try exact hs
  case roomCreated =>
    simp only [roomOwnerInv]
    rw [Bool.or_comm]
    exact hw
  case roomJoined =>
    simp only [roomOwnerInv]
    rw [Bool.or_comm]
    exact hw
  case leftRoom => rfl
  case makeHost =>
    simp only [roomOwnerInv]
    rw [Bool.or_comm]
    exact hw
  case reassignedHost =>
    simp only [roomOwnerInv]
    rw [Bool.or_comm]
    exact hw

theorem hostInv_step (m : Inbound) (s : SessionState)
    (hs : hostInv s = true) (hw : wfHostMsg m s = true) :
    hostInv (stepState m s) = true := by
  cases m with
  | binary bytes => rw [stepState_binary]; exact hs
  | text p =>
      cases p with
      | none => exact hs
      | some d =>
          cases d
          case null => exact hs
          all_goals exact hostInv_dispatch _ s hs hw

theorem roomOwnerInv_step (m : Inbound) (s : SessionState)
    (hs : roomOwnerInv s = true) (hw : wfRoomMsg m s = true) :
    roomOwnerInv (stepState m s) = true := by
  cases m with
  | binary bytes => rw [stepState_binary]; exact hs
  | text p =>
      cases p with
      | none => exact hs
      | some d =>
          cases d
          case null => exact hs
          all_goals exact roomOwnerInv_dispatch _ s hs hw

theorem hostInv_run (msgs : List Inbound) (s : SessionState)
    (hs : hostInv s = true) (hw : wfRun wfHostMsg s msgs = true) :
    hostInv (runMsgs msgs s) = true := by
  induction msgs generalizing s with
  | nil => exact hs
  | cons m ms ih =>
      simp only [wfRun, Bool.and_eq_true] at hw
      exact ih (stepState m s) (hostInv_step m s hs hw.1) hw.2

theorem roomOwnerInv_run (msgs : List Inbound) (s : SessionState)
    (hs : roomOwnerInv s = true) (hw : wfRun wfRoomMsg s msgs = true) :
    roomOwnerInv (runMsgs msgs s) = true := by
  induction msgs generalizing s with
  | nil => exact hs
  | cons m ms ih =>
      simp only [wfRun, Bool.and_eq_true] at hw
      exact ih (stepState m s) (roomOwnerInv_step m s hs hw.1) hw.2

theorem wfRun_take (wf : Inbound → SessionState → Bool)
    (msgs : List Inbound) (s : SessionState)
    (hw : wfRun wf s msgs = true) (k : Nat) :
    wfRun wf s (msgs.take k) = true := by
  induction msgs generalizing s k with
  | nil => simp [wfRun]
  | cons m ms ih =>
      cases k with
      | zero => rfl
      | succ k2 =>
          simp only [List.take, wfRun, Bool.and_eq_true] at hw ⊢
          exact ⟨hw.1, ih (stepState m s) hw.2 k2⟩

theorem typeCode_other_of_not_recognized (v : JsVal)
    (h : isRecognizedType v = false) : typeCode v = MsgType.other := by
  rcases v with _ | jv
  · rfl
  · cases jv
    case str t =>
      simp only [isRecognizedType, recognizedTypes] at h
      simp only [List.contains, List.elem_eq_mem, decide_eq_false_iff_not,
        List.mem_cons, List.not_mem_nil, or_false, not_or] at h
      obtain ⟨h1, h2, h3, h4, h5, h6, h7, h8, h9, h10, h11, h12, h13, h14,
        h15, h16⟩ := h
      simp [typeCode, h1, h2, h3, h4, h5, h6, h7, h8, h9, h10, h11, h12,
        h13, h14, h15, h16]
    all_goals rfl

theorem forEachRun_front (pre post : List Bool)
    (hpre : ∀ b ∈ pre, b = false) (i : Nat) :
    forEachRun (pre ++ true :: post) i =
      (List.range' i (pre.length + 1), true) := by
  induction pre generalizing i with
  | nil => simp [forEachRun, List.range']
  | cons b rest ih =>
      have hb : b = false := hpre b (by simp)
      subst hb
      have hrest : ∀ x ∈ rest, x = false := fun x hx => hpre x (by simp [hx])
      simp only [List.cons_append, forEachRun, if_neg Bool.false_ne_true]
      simp [List.range'_succ, ih hrest]

/-- Claim C1, counterexample: the invariant `isHost == (ownerId ==
playerId)` does not hold after every inbound message or after
disconnection.  Processing the single message `roomCreated` with
`roomId = "R1"` and `playerId = 7` from the initial state (local
`playerId` still `null`) leaves `isHost = true` while `ownerId` (7)
differs from `playerId` (`null`); and after disconnection `isHost` is
`false` while `ownerId` and `playerId` are both `null`, hence strictly
equal. -/
theorem host_invariant_claim_fails :
    hostInvClaimed (stepState (Inbound.text (some (Json.obj
        [(("type"), Json.str ("roomCreated")),
         (("roomId"), Json.str ("R1")),
         (("playerId"), Json.num 7)]))) initialSession) = false ∧
      hostInvClaimed ((onClose initialSession).1) = false :=
  ⟨rfl, rfl⟩

/-- Claim C1 (amended): for every sequence of inbound messages that is
server-consistent in the sense of `wfHostMsg` (each `roomCreated` echoes
the session's own primitive player id, `roomJoined` names an owner other
than the local player, `assignId` arrives only with no owner set,
`makeHost` only when the local player id is a primitive id, and
`reassignedHost` never pairs a nullish `newHostId` with an equal local
`playerId`), after processing each message — and after disconnection —
the session state satisfies `isHost == (ownerId is non-null and ownerId
== playerId)`. -/
theorem host_invariant_amended (msgs : List Inbound)
    (hw : wfRun wfHostMsg initialSession msgs = true) :
    (∀ k, hostInv (runMsgs (msgs.take k) initialSession) = true) ∧
      hostInv ((onClose (runMsgs msgs initialSession)).1) = true :=
  ⟨fun k => hostInv_run _ _ rfl (wfRun_take _ _ _ hw k), rfl⟩

/-- Witness for `host_invariant_amended` on the concrete run `demoRun`. -/
theorem host_invariant_amended_witness :
    wfRun wfHostMsg initialSession demoRun = true ∧
      hostInv (runMsgs (demoRun.take 2) initialSession) = true :=
  ⟨rfl, (host_invariant_amended demoRun rfl).1 2⟩

/-- Claim C2, counterexample: a raising callback does prevent the
remaining callbacks in the same `emit` from running.  With two callbacks
registered, the first raising, the exception escapes `emit` and the
second callback (index 1) is never invoked. -/
theorem emit_isolation_fails :
    (emitInvoked [true, false]).2 = true ∧
      1 ∉ (emitInvoked [true, false]).1 :=
  ⟨rfl, by decide⟩

/-- Claim C2 (amended): when the callbacks before index `i` all return
normally and the callback at `i` raises, `emit` invokes exactly the
callbacks at indices `0..i` (in registration order), the callbacks after
`i` are not invoked in that `emit` call, and the exception propagates out
of `emit`. -/
theorem emit_stops_at_first_raising (pre post : List Bool)
    (hpre : ∀ b ∈ pre, b = false) :
    emitInvoked (pre ++ true :: post) =
      (List.range (pre.length + 1), true) := by
  rw [emitInvoked, forEachRun_front pre post hpre 0, List.range_eq_range']

/-- Witness for `emit_stops_at_first_raising`: three callbacks, the
second raising; callbacks 0 and 1 run, callback 2 does not. -/
theorem emit_stops_witness :
    emitInvoked [false, true, false] = (List.range 2, true) :=
  emit_stops_at_first_raising [false] [false] (by decide)

/-- Claim C3: from every prior session state, a transport-close
notification resets the session state to exactly `playerId = null`,
`roomId = null`, `ownerId = null`, `isHost = false` (the constructor
state) and then emits the `"disconnected"` event. -/
theorem close_resets_state (s : SessionState) :
    onClose s = (initialSession, [Event.disconnected]) := rfl

/-- Claim C4: for every sender id (below 2^32) and every payload byte
sequence, including the empty one, decoding the binary frame formed by
the 4-byte big-endian sender id followed by the payload emits
`binary(senderId, payload)` with the payload reproduced byte-for-byte,
mutates no session state, and throws nothing. -/
theorem binary_roundtrip (sender : Nat) (hs : sender < 2 ^ 32)
    (payload : List Nat) (s : SessionState) :
    handleMessage (Inbound.binary (beBytes4 sender ++ payload)) s =
      Except.ok (s, [Event.binary sender payload]) := by
  have hlen : (beBytes4 sender ++ payload).length = 4 + payload.length := by
    simp [beBytes4]
    omega
  have h4 : ¬ (beBytes4 sender ++ payload).length < 4 := by
    rw [hlen]; omega
  have hs2 : sender < 4294967296 := by simpa using hs
  have hid : getUint32BE (beBytes4 sender ++ payload) = sender := by
    show sender / 2 ^ 24 % 256 * 2 ^ 24 + sender / 2 ^ 16 % 256 * 2 ^ 16 +
      sender / 2 ^ 8 % 256 * 2 ^ 8 + sender % 256 = sender
    omega
  have hdrop : (beBytes4 sender ++ payload).drop 4 = payload := rfl
  simp only [handleMessage]
  rw [if_neg h4, hid, hdrop]

/-- Witness for `binary_roundtrip` at sender id 3 and payload
`[1, 2, 3]`. -/
theorem binary_roundtrip_witness :
    3 < 2 ^ 32 ∧
      handleMessage (Inbound.binary (beBytes4 3 ++ [1, 2, 3]))
          initialSession =
        Except.ok (initialSession, [Event.binary 3 [1, 2, 3]]) :=
  ⟨by decide, binary_roundtrip 3 (by decide) [1, 2, 3] initialSession⟩

/-- Claim C5: every outbound API call (createRoom, joinRoom, leaveRoom,
listRooms, updateMeta, addTag, removeTag, sendRelay, tellOwner,
tellPlayer, sendBinary) made while the transport handle is absent
(`ws = none`) or not in the open-ready state (`readyState ≠ OPEN`) puts
zero frames on the wire; `apiSend` is total, so no error reaches the
caller. -/
theorem gated_send_drops (gameName : String) (ws : Option Nat)
    (c : ApiCall) (h : ws ≠ some wsOPEN) :
    apiSend gameName ws c = [] := by
  have hg : ∀ f, sendGate ws f = [] := by
    intro f
    cases ws with
    | none => rfl
    | some r =>
        have hr : ¬ r = wsOPEN := fun hr => h (congrArg some hr)
        simp [sendGate, hr]
  cases c <;> simp [apiSend, buildMsg, hg]

/-- Witness for `gated_send_drops`: a `joinRoom` call while the handle is
present but still CONNECTING (`readyState = 0`) sends nothing. -/
theorem gated_send_drops_witness :
    ((some 0 : Option Nat) ≠ some wsOPEN) ∧
      apiSend ("demo") (some 0) (ApiCall.joinRoom (Json.str ("R1"))) = [] :=
  ⟨by decide, gated_send_drops ("demo") (some 0) _ (by decide)⟩

/-- Claim C6: an inbound text frame whose content fails to parse as JSON
is discarded: no event is emitted, no session-state field is mutated, and
no exception escapes the handler. -/
theorem malformed_text_noop (s : SessionState) :
    handleMessage (Inbound.text none) s = Except.ok (s, []) := rfl

/-- Claim C7: an inbound text frame that parses to a JSON object whose
`type` value is not one of the sixteen recognized discriminators emits no
event and mutates no session-state field. -/
theorem unrecognized_type_noop (fields : List (String × Json))
    (s : SessionState)
    (h : isRecognizedType (jsField (Json.obj fields) ("type")) = false) :
    handleMessage (Inbound.text (some (Json.obj fields))) s =
      Except.ok (s, []) := by
  have hd : dispatch (Json.obj fields) s = (s, []) := by
    unfold dispatch
    rw [typeCode_other_of_not_recognized _ h]
  simp [handleMessage, hd]

/-- Witness for `unrecognized_type_noop` on `type = "unknownThing"`. -/
theorem unrecognized_type_noop_witness :
    isRecognizedType (jsField
        (Json.obj [(("type"), Json.str ("unknownThing"))]) ("type")) =
      false ∧
      handleMessage (Inbound.text (some
          (Json.obj [(("type"), Json.str ("unknownThing"))])))
          initialSession =
        Except.ok (initialSession, []) :=
  ⟨rfl, unrecognized_type_noop _ initialSession rfl⟩

/-- Claim C8, counterexample: the invariant `roomId ≠ null → ownerId ≠
null` does not hold after every transition: a `roomCreated` message that
carries a room id but no `playerId` field sets `roomId = "R1"` while
`ownerId` becomes `undefined`. -/
theorem room_owner_claim_fails :
    roomOwnerInv (stepState (Inbound.text (some (Json.obj
        [(("type"), Json.str ("roomCreated")),
         (("roomId"), Json.str ("R1"))]))) initialSession) = false := rfl

/-- Claim C8 (amended): for every sequence of inbound messages that is
server-consistent in the sense of `wfRoomMsg` (`roomCreated` and
`roomJoined` carry a non-null owner whenever they carry a non-null room
id; `makeHost` arrives only when the local player id is non-null or no
room is joined; `reassignedHost` carries a non-null `newHostId` or
arrives outside a room), after every message — and after disconnection —
a non-null `roomId` implies a non-null `ownerId`. -/
theorem room_owner_invariant_amended (msgs : List Inbound)
    (hw : wfRun wfRoomMsg initialSession msgs = true) :
    (∀ k, roomOwnerInv (runMsgs (msgs.take k) initialSession) = true) ∧
      roomOwnerInv ((onClose (runMsgs msgs initialSession)).1) = true :=
  ⟨fun k => roomOwnerInv_run _ _ rfl (wfRun_take _ _ _ hw k), rfl⟩

/-- Witness for `room_owner_invariant_amended` on the concrete run
`demoRoomRun`. -/
theorem room_owner_invariant_witness :
    wfRun wfRoomMsg initialSession demoRoomRun = true ∧
      roomOwnerInv (runMsgs (demoRoomRun.take 1) initialSession) = true :=
  ⟨rfl, (room_owner_invariant_amended demoRoomRun rfl).1 1⟩

/-- Claim C9: the binary decoder is not total: an inbound binary frame of
fewer than 4 bytes makes the sender-id read throw an out-of-bounds
`RangeError` instead of discarding the frame. -/
theorem short_binary_frame_throws (bytes : List Nat)
    (h : bytes.length < 4) (s : SessionState) :
    handleMessage (Inbound.binary bytes) s =
      Except.error JsError.rangeError := by
  simp only [handleMessage]
  rw [if_pos h]

/-- Witness for `short_binary_frame_throws` on the 2-byte frame
`[5, 6]`. -/
theorem short_binary_frame_throws_witness :
    ([5, 6] : List Nat).length < 4 ∧
      handleMessage (Inbound.binary [5, 6]) initialSession =
        Except.error JsError.rangeError :=
  ⟨by decide, short_binary_frame_throws [5, 6] (by decide) initialSession⟩

/-- Claim C10: the text frame `"null"` parses successfully to JSON
`null`, and the subsequent `data.type` access throws a `TypeError` that
escapes the message handler, for every session state. -/
theorem null_text_frame_throws (s : SessionState) :
    handleMessage (Inbound.text (some Json.null)) s =
      Except.error JsError.typeError := rfl

end NetClient
